import Mathlib

/-!
Shallow embedding of the frame-buffer text console of `src/terminal.rs`
(struct `Writer` and its methods), together with theorems about the
cursor/line state machine, the pixel compositor and the clear policy.

Modelling conventions:
* `usize` arithmetic is modelled on `Nat` with explicit wraparound
  modulo `2^64` (release-mode semantics) wherever the source can
  overflow (`y_pos += 14`, `x_pos += width`, offset computations, and
  the subtraction `height - BITMAP_LETTER_WIDTH`).
* A Rust panic (failed slice indexing, `Option::unwrap` on `None`,
  `panic!("unsupported pixel format")`) is modelled by the value
  `none` of an `Option`-returning operation.
* The external font crate (`noto_sans_mono_bitmap`) is a collaborator,
  not part of this repository; it is modelled by an abstract `Font`
  record providing `get_bitmap` and the constant `get_bitmap_width`.
-/

namespace Terminal

/-- The `usize` modulus `2 ^ 64` of the x86-64 target. -/
def W : Nat := 18446744073709551616

/-- Wrapping `usize` subtraction `a - b` (release-mode wraparound). -/
def wsub (a b : Nat) : Nat := (a + (W - b % W)) % W

/-- `bootloader::boot_info::PixelFormat`; the enum is non-exhaustive, so the
model keeps an explicit fourth constructor for any other format. -/
inductive PixelFormat where
  | RGB
  | BGR
  | U8
  | Unknown
deriving DecidableEq

/-- The fields of `bootloader::boot_info::FrameBufferInfo` used by the console. -/
structure FrameBufferInfo where
  horizontal_resolution : Nat
  vertical_resolution : Nat
  stride : Nat
  bytes_per_pixel : Nat
  pixel_format : PixelFormat
deriving DecidableEq

/-- Modelled from the spec: the glyph bitmap produced by the external
rasterizer (`noto_sans_mono_bitmap::BitmapChar`) — a grid of intensity
values `0..=255` (14 rows at the fixed `BitmapHeight::Size14`) plus the
glyph's reported advance width. -/
structure BitmapChar where
  bitmap : List (List Nat)
  width : Nat
deriving DecidableEq

/-- Modelled from the spec: the external glyph lookup service —
`get_bitmap(c, FontWeight::Regular, BitmapHeight::Size14)` and the
compile-time constant `get_bitmap_width(FontWeight::Regular,
BitmapHeight::Size14)` (the maximum glyph width). -/
structure Font where
  get_bitmap : Char → Option BitmapChar
  get_bitmap_width : Nat

/-- `const LINE_SPACING: usize = 0;` -/
def LINE_SPACING : Nat := 0

/-- The console state of `terminal.rs`: the owned framebuffer byte slice,
the immutable layout info and the cursor. -/
structure Writer where
  framebuffer : List Nat
  info : FrameBufferInfo
  x_pos : Nat
  y_pos : Nat
deriving DecidableEq

/-- `fn width(&self) -> usize { self.info.horizontal_resolution }` -/
def Writer.width (w : Writer) : Nat := w.info.horizontal_resolution

/-- `fn height(&self) -> usize { self.info.vertical_resolution }` -/
def Writer.height (w : Writer) : Nat := w.info.vertical_resolution

/-- `fn carriage_return(&mut self) { self.x_pos = 0; }` -/
def Writer.carriage_return (w : Writer) : Writer := { w with x_pos := 0 }

/-- `fn newline(&mut self)`: `y_pos += 14 + LINE_SPACING` (wrapping add),
then `carriage_return`. -/
def Writer.newline (w : Writer) : Writer :=
  Writer.carriage_return { w with y_pos := (w.y_pos + (14 + LINE_SPACING)) % W }

/-- `pub fn clear(&mut self)`: reset the cursor and `framebuffer.fill(0)`. -/
def Writer.clear (w : Writer) : Writer :=
  { w with x_pos := 0, y_pos := 0, framebuffer := w.framebuffer.map (fun _ => 0) }

/-- `pub fn new(framebuffer, info)`: build the writer with cursor `(0,0)`
and immediately `clear` it. -/
def Writer.new (framebuffer : List Nat) (info : FrameBufferInfo) : Writer :=
  Writer.clear { framebuffer := framebuffer, info := info, x_pos := 0, y_pos := 0 }

/-- The `match self.info.pixel_format` arm of `write_pixel` computing the
four color bytes from the intensity; `none` models
`panic!("unsupported pixel format")`. -/
def pixelColor : PixelFormat → Nat → Option (List Nat)
  | PixelFormat.RGB, intensity => some [intensity, intensity, intensity / 2, 0]
  | PixelFormat.BGR, intensity => some [intensity / 2, intensity, intensity, 0]
  | PixelFormat.U8, intensity => some [if intensity > 200 then 0xf else 0, 0, 0, 0]
  | PixelFormat.Unknown, _ => none

/-- `dst[off..off+src.len()].copy_from_slice(src)` on a byte list, assuming
the bounds were already checked. -/
def storeBytes (l : List Nat) (off : Nat) (src : List Nat) : List Nat :=
  l.take off ++ src ++ l.drop (off + src.length)

/-- `fn write_pixel(&mut self, x, y, intensity)`.
`pixel_offset = y * stride + x`, `byte_offset = pixel_offset * bytes_per_pixel`
(both wrapping); the guard models the panics of `&color[..bytes_per_pixel]`
(needs `bytes_per_pixel <= 4`), of
`framebuffer[byte_offset..byte_offset + bytes_per_pixel]`, and of the final
volatile read `framebuffer[byte_offset]` (which has no further observable
effect in this model). -/
def Writer.write_pixel (w : Writer) (x y intensity : Nat) : Option Writer :=
  let pixel_offset := (y * w.info.stride + x) % W
  match pixelColor w.info.pixel_format intensity with
  | none => none
  | some color =>
    let bpp := w.info.bytes_per_pixel
    let byte_offset := (pixel_offset * bpp) % W
    if bpp ≤ 4 ∧ byte_offset + bpp ≤ w.framebuffer.length ∧
        byte_offset < w.framebuffer.length then
      some { w with framebuffer := storeBytes w.framebuffer byte_offset (color.take bpp) }
    else
      none

/-- `fn write_rendered_char(&mut self, rendered_char)`: blit every
`(y, row)` and `(x, byte)` of the bitmap through `write_pixel` at
`(self.x_pos + x, self.y_pos + y)`, then advance `x_pos` by the glyph's
width (wrapping add). A panic in any pixel write aborts the whole blit. -/
def Writer.write_rendered_char (w : Writer) (rendered_char : BitmapChar) : Option Writer := do
  let w1 ← rendered_char.bitmap.enum.foldlM
    (fun acc yrow =>
      yrow.2.enum.foldlM
        (fun acc2 xbyte =>
          acc2.write_pixel (acc2.x_pos + xbyte.1) (acc2.y_pos + yrow.1) xbyte.2)
        acc)
    w
  pure { w1 with x_pos := (w1.x_pos + rendered_char.width) % W }

/-- The visible-character path of `write_char` after the wrap check: the
bottom-overflow check (`y_pos >= height - BITMAP_LETTER_WIDTH`, wrapping
subtraction) with its clear, then `get_bitmap(c, ..).unwrap()` and the blit. -/
def Writer.write_visible (w : Writer) (f : Font) (c : Char) : Option Writer :=
  let w2 := if w.y_pos ≥ wsub w.height f.get_bitmap_width then w.clear else w
  match f.get_bitmap c with
  | none => none
  | some bitmap_char => w2.write_rendered_char bitmap_char

/-- `fn write_char(&mut self, c)`: intercept `\n` and `\r`; otherwise wrap
when `x_pos >= width`, clear when `y_pos >= height - BITMAP_LETTER_WIDTH`
(wrapping subtraction), then fetch and blit the glyph (`unwrap` panics —
`none` — when the font has no bitmap for `c`). -/
def Writer.write_char (w : Writer) (f : Font) (c : Char) : Option Writer :=
  if c = '\n' then some w.newline
  else if c = '\r' then some w.carriage_return
  else
    let w1 := if w.x_pos ≥ w.width then w.newline else w
    let w2 := if w1.y_pos ≥ wsub w1.height f.get_bitmap_width then w1.clear else w1
    match f.get_bitmap c with
    | none => none
    | some bitmap_char => w2.write_rendered_char bitmap_char

/-- `fn write_str(&mut self, s) -> fmt::Result`: write every character in
order (a panic — `none` — aborts the whole call), then return `Ok(())`.
The `Except Unit Unit` component models `core::fmt::Result`. -/
def Writer.write_str (w : Writer) (f : Font) (s : List Char) : Option (Writer × Except Unit Unit) :=
  match s with
  | [] => some (w, Except.ok ())
  | c :: cs => (w.write_char f c).bind (fun w2 => w2.write_str f cs)

/-- Console states reachable from construction by any sequence of
character writes (newline, carriage return, visible character) and clears. -/
inductive Reached (f : Font) (fb : List Nat) (info : FrameBufferInfo) : Writer → Prop
  | base : Reached f fb info (Writer.new fb info)
  | step : ∀ w c w2, Reached f fb info w → w.write_char f c = some w2 → Reached f fb info w2
  | stepClear : ∀ w, Reached f fb info w → Reached f fb info w.clear

/-- Modelled from the spec: a concrete instance of the external rasterizer
used for concrete scenarios — one glyph (for `A`) of the fixed height 14
(spec §3) and width 1, with maximum glyph width 8. -/
def glyphA : BitmapChar := { bitmap := List.replicate 14 [255], width := 1 }

/-- Modelled from the spec: a concrete `Font` with the single glyph
`glyphA` for the character `A` and `get_bitmap_width = 8`. -/
def font14 : Font :=
  { get_bitmap := fun c => if c = 'A' then some glyphA else none
    get_bitmap_width := 8 }

/-- The layout of the spec §8 scenario: 4×2 pixels, stride 8,
4 bytes per pixel, RGB. -/
def scenInfo : FrameBufferInfo :=
  { horizontal_resolution := 4, vertical_resolution := 2, stride := 8
    bytes_per_pixel := 4, pixel_format := PixelFormat.RGB }

/-- A 64-byte framebuffer (`stride × height × bytes_per_pixel`) for `scenInfo`. -/
def scenFB : List Nat := List.replicate 64 0

/-- The scenario state after writing one newline on a fresh `scenInfo` console. -/
def s5 : Writer := { framebuffer := List.replicate 64 0, info := scenInfo, x_pos := 0, y_pos := 14 }

/-- A layout whose height (5) is smaller than the maximum glyph width (8):
width 10, stride 2, one byte per pixel, single-channel format. -/
def cexInfo : FrameBufferInfo :=
  { horizontal_resolution := 10, vertical_resolution := 5, stride := 2
    bytes_per_pixel := 1, pixel_format := PixelFormat.U8 }

/-- A 56-byte framebuffer, large enough to hold 28 rows of stride 2. -/
def cexFB : List Nat := List.replicate 56 0

/-- The state after writing one newline on a fresh `cexInfo` console. -/
def s3 : Writer := { framebuffer := List.replicate 56 0, info := cexInfo, x_pos := 0, y_pos := 14 }

/-- A layout tall enough (height 20 ≥ glyph width 8) for the overflow-clear
path to complete: width 10, stride 2, one byte per pixel, single-channel. -/
def c3wInfo : FrameBufferInfo :=
  { horizontal_resolution := 10, vertical_resolution := 20, stride := 2
    bytes_per_pixel := 1, pixel_format := PixelFormat.U8 }

/-- A `c3wInfo` console sitting at `y_pos = 14 ≥ 20 - 8` after a newline. -/
def c3w : Writer := { framebuffer := List.replicate 56 0, info := c3wInfo, x_pos := 0, y_pos := 14 }

/-- A tall layout (height 40) with the cursor past the right edge
(`x_pos = 10 ≥ width 10`), for exercising the wrap path. -/
def c4wInfo : FrameBufferInfo :=
  { horizontal_resolution := 10, vertical_resolution := 40, stride := 2
    bytes_per_pixel := 1, pixel_format := PixelFormat.U8 }

/-- A `c4wInfo` console with `x_pos = width`, about to wrap. -/
def c4w : Writer := { framebuffer := List.replicate 100 0, info := c4wInfo, x_pos := 10, y_pos := 0 }

/-- A fresh `scenInfo` console used as the concrete pixel-write input. -/
def wpix : Writer := { framebuffer := List.replicate 64 0, info := scenInfo, x_pos := 0, y_pos := 0 }

theorem wsub_eq_sub (a b : Nat) (hb : b ≤ a) (ha : a < W) : wsub a b = a - b := by
  unfold wsub
  have hbW : b < W := lt_of_le_of_lt hb ha
  rw [Nat.mod_eq_of_lt hbW]
  have h2 : a + (W - b) = W + (a - b) := by omega
  rw [h2, Nat.add_mod_left]
  exact Nat.mod_eq_of_lt (by omega)

/-- Claim C1 (amended): a pixel write of intensity `i` at `(x, row)` stores
the color bytes, truncated to `bytes_per_pixel`, starting at byte offset
`row * (stride * bytes_per_pixel) + x * bytes_per_pixel` — the descriptor's
`stride` counts pixels per row, so the bytes-per-row pitch is
`stride * bytes_per_pixel`. -/
theorem c1_pixel_offset (w : Writer) (x y i : Nat) (color : List Nat)
    (hc : pixelColor w.info.pixel_format i = some color)
    (hbpp : w.info.bytes_per_pixel ≤ 4)
    (hbpp0 : 0 < w.info.bytes_per_pixel)
    (hov : y * w.info.stride + x < W)
    (hov2 : (y * w.info.stride + x) * w.info.bytes_per_pixel < W)
    (hlen : (y * w.info.stride + x) * w.info.bytes_per_pixel + w.info.bytes_per_pixel ≤
      w.framebuffer.length) :
    w.write_pixel x y i = some { w with framebuffer := storeBytes w.framebuffer (y * (w.info.stride * w.info.bytes_per_pixel) + x * w.info.bytes_per_pixel) (color.take w.info.bytes_per_pixel) } := by
  simp only [Writer.write_pixel, hc]
  rw [Nat.mod_eq_of_lt hov, Nat.mod_eq_of_lt hov2]
  rw [if_pos ⟨hbpp, by omega, by omega⟩]
  rw [show (y * w.info.stride + x) * w.info.bytes_per_pixel =
    y * (w.info.stride * w.info.bytes_per_pixel) + x * w.info.bytes_per_pixel from by ring]

/-- Claim C1 counterexample: on the spec's own layout (`stride = 8`,
`bytes_per_pixel = 4`), writing intensity 255 at `(x, row) = (0, 1)` stores
the bytes at offset 32, not at the claimed offset
`row * stride + x * bytes_per_pixel = 8`: byte 8 is left untouched (0)
while byte 32 receives the first color byte 255. -/
theorem c1_counterexample :
    scenInfo.stride = 8 ∧ scenInfo.bytes_per_pixel = 4 ∧
    1 * scenInfo.stride + 0 * scenInfo.bytes_per_pixel = 8 ∧
    (wpix.write_pixel 0 1 255).map
      (fun w => (w.framebuffer.get? 8, w.framebuffer.get? 32)) = some (some 0, some 255) := by
  decide

/-- C1 witness: the amended offset law evaluated at `(x, row) = (1, 1)`,
intensity 200 on a concrete RGB console. -/
theorem c1_witness :
    wpix.write_pixel 1 1 200 = some { wpix with framebuffer := storeBytes wpix.framebuffer (1 * (wpix.info.stride * wpix.info.bytes_per_pixel) + 1 * wpix.info.bytes_per_pixel) ([200, 200, 200 / 2, 0].take wpix.info.bytes_per_pixel) } :=
  c1_pixel_offset wpix 1 1 200 [200, 200, 200 / 2, 0] rfl (by decide) (by decide)
    (by decide) (by decide) (by decide)

/-- Claim C2 (amended): in every reachable console state the cursor
coordinates are nonnegative, and the cursor is `(0,0)` immediately after
construction and after every clear. The original upper bound
`cursor_y ≤ height` does not hold (see the counterexample). -/
theorem c2_cursor_invariant (f : Font) (fb : List Nat) (info : FrameBufferInfo)
    (w : Writer) (h : Reached f fb info w) :
    0 ≤ w.x_pos ∧ 0 ≤ w.y_pos ∧
    (Writer.new fb info).x_pos = 0 ∧ (Writer.new fb info).y_pos = 0 ∧
    w.clear.x_pos = 0 ∧ w.clear.y_pos = 0 :=
  ⟨Nat.zero_le _, Nat.zero_le _, rfl, rfl, rfl, rfl⟩

/-- C2 counterexample: on a 4×2-pixel console, a single newline write
reaches a state with `cursor_y = 14 > height = 2`, violating the claimed
invariant `cursor_y ≤ height`. -/
theorem c2_counterexample :
    Reached font14 scenFB scenInfo s5 ∧ scenInfo.vertical_resolution = 2 ∧
    ¬ s5.y_pos ≤ scenInfo.vertical_resolution :=
  ⟨Reached.step (Writer.new scenFB scenInfo) '\n' s5 Reached.base (by decide), rfl, by decide⟩

/-- C2 witness: the amended invariant evaluated at the freshly constructed
console (reachable by `Reached.base`). -/
theorem c2_witness :
    0 ≤ (Writer.new scenFB scenInfo).x_pos ∧ 0 ≤ (Writer.new scenFB scenInfo).y_pos ∧
    (Writer.new scenFB scenInfo).x_pos = 0 ∧ (Writer.new scenFB scenInfo).y_pos = 0 ∧
    (Writer.new scenFB scenInfo).clear.x_pos = 0 ∧ (Writer.new scenFB scenInfo).clear.y_pos = 0 :=
  c2_cursor_invariant font14 scenFB scenInfo (Writer.new scenFB scenInfo) Reached.base

/-- Claim C3 (amended): provided the height is at least the maximum glyph
width (so that `height - BITMAP_LETTER_WIDTH` does not underflow) and the
width is positive, a visible-character write in a post-newline state
(`x_pos = 0`) with `y_pos ≥ height - get_bitmap_width` first clears the
whole buffer (cursor reset to `(0,0)`, every byte zero — prior pixels are
unrecoverable) and only then renders the character from the cleared state. -/
theorem c3_overflow_clear (f : Font) (w : Writer) (c : Char)
    (h1 : c ≠ '\n') (h2 : c ≠ '\r')
    (hx : w.x_pos = 0) (hwidth : 0 < w.width)
    (hh : w.height < W) (hblw : f.get_bitmap_width ≤ w.height)
    (hy : w.height - f.get_bitmap_width ≤ w.y_pos) :
    w.write_char f c = (f.get_bitmap c).bind (fun g => w.clear.write_rendered_char g) ∧
    (∀ b ∈ w.clear.framebuffer, b = 0) ∧ w.clear.x_pos = 0 ∧ w.clear.y_pos = 0 := by
  refine ⟨?_, ?_, rfl, rfl⟩
  · simp only [Writer.write_char, if_neg h1, if_neg h2, hx]
    rw [if_neg (by omega : ¬ (0 ≥ w.width))]
    rw [wsub_eq_sub _ _ hblw hh, if_pos hy]
    cases f.get_bitmap c <;> rfl
  · intro b hb
    simp only [Writer.clear, List.mem_map] at hb
    obtain ⟨a, _, ha⟩ := hb
    exact ha.symm

/-- C3 counterexample: the claim, read over the integers, fails when
`height < get_bitmap_width`: on a height-5 console with maximum glyph
width 8, the post-newline state `s3` satisfies the claimed precondition
`cursor_y = 14 ≥ 5 - 8`, but the wrapping subtraction in the code makes
the overflow check false, so the write renders at `y_pos = 14` without any
clear (the clear-then-render result would have `y_pos = 0`). -/
theorem c3_counterexample :
    (Writer.new cexFB cexInfo).write_char font14 '\n' = some s3 ∧
    s3.x_pos = 0 ∧
    ((cexInfo.vertical_resolution : Int) - (font14.get_bitmap_width : Int) ≤ (s3.y_pos : Int)) ∧
    (s3.write_char font14 'A').map Writer.y_pos = some 14 ∧
    ((font14.get_bitmap 'A').bind (fun g => s3.clear.write_rendered_char g)).map Writer.y_pos
      = some 0 := by
  decide

/-- C3 witness: the amended overflow-clear law evaluated on a height-20
console sitting at `y_pos = 14 ≥ 20 - 8` after a newline. -/
theorem c3_witness :
    c3w.write_char font14 'A' =
      (font14.get_bitmap 'A').bind (fun g => c3w.clear.write_rendered_char g) ∧
    (∀ b ∈ c3w.clear.framebuffer, b = 0) ∧ c3w.clear.x_pos = 0 ∧ c3w.clear.y_pos = 0 :=
  c3_overflow_clear font14 c3w 'A' (by decide) (by decide) rfl (by decide) (by decide)
    (by decide) (by decide)

/-- Claim C4 (confirmed): writing a visible character with `x_pos ≥ width`
performs exactly one newline transition — `y_pos` advances by
`14 + LINE_SPACING` and `x_pos` resets to 0 — and then continues with the
ordinary visible-character path (overflow check and rendering) from the
start of the new line. -/
theorem c4_wrap_law (f : Font) (w : Writer) (c : Char)
    (h1 : c ≠ '\n') (h2 : c ≠ '\r') (h3 : w.x_pos ≥ w.width) :
    w.write_char f c = (w.newline).write_visible f c ∧
    w.newline.x_pos = 0 ∧ w.newline.y_pos = (w.y_pos + (14 + LINE_SPACING)) % W := by
  refine ⟨?_, rfl, rfl⟩
  simp only [Writer.write_char, Writer.write_visible, if_neg h1, if_neg h2, if_pos h3]

/-- C4 witness: the wrap law evaluated on a concrete console with
`x_pos = width = 10`. -/
theorem c4_witness :
    c4w.write_char font14 'A' = (c4w.newline).write_visible font14 'A' ∧
    c4w.newline.x_pos = 0 ∧ c4w.newline.y_pos = (c4w.y_pos + (14 + LINE_SPACING)) % W :=
  c4_wrap_law font14 c4w 'A' (by decide) (by decide) (by decide)

/-- Claim C5 (amended): on the 4×2, stride-8, 4-bytes-per-pixel RGB console,
writing a newline moves the cursor from `(0,0)` to `(0,14)`; the next
visible-character write then panics (out-of-bounds framebuffer access)
instead of completing a clear-and-render — a 14-pixel-tall glyph cannot be
drawn into a 2-pixel-tall framebuffer even after a clear. -/
theorem c5_scenario :
    (Writer.new scenFB scenInfo).write_char font14 '\n' = some s5 ∧
    s5.x_pos = 0 ∧ s5.y_pos = 14 ∧
    s5.write_char font14 'A' = none ∧
    ((font14.get_bitmap 'A').bind (fun g => s5.clear.write_rendered_char g)) = none := by
  decide

/-- C5 counterexample: the claimed clear-then-render never completes — the
visible-character write after the newline on the 4×2 console returns no
final state at all (it panics), so it does not produce a cleared,
re-rendered console. -/
theorem c5_counterexample :
    (Writer.new scenFB scenInfo).write_char font14 '\n' = some s5 ∧
    (s5.write_char font14 'A').isSome = false := by
  decide

/-- Claim C6 (confirmed): for every intensity in `[0,255]` the compositor
produces `[i, i, i/2, 0]` for the RGB-like format and the mirrored
`[i/2, i, i, 0]` for the BGR-like format (integer division); in particular
`i = 200` yields `[200,200,100,0]` and `[100,200,200,0]`. -/
theorem c6_rgb_bgr_color (i : Nat) (h : i ≤ 255) :
    pixelColor PixelFormat.RGB i = some [i, i, i / 2, 0] ∧
    pixelColor PixelFormat.BGR i = some [i / 2, i, i, 0] ∧
    pixelColor PixelFormat.RGB 200 = some [200, 200, 100, 0] ∧
    pixelColor PixelFormat.BGR 200 = some [100, 200, 200, 0] :=
  ⟨rfl, rfl, by decide, by decide⟩

/-- C6 witness: the RGB/BGR compositor law evaluated at intensity 77. -/
theorem c6_witness :
    pixelColor PixelFormat.RGB 77 = some [77, 77, 77 / 2, 0] ∧
    pixelColor PixelFormat.BGR 77 = some [77 / 2, 77, 77, 0] ∧
    pixelColor PixelFormat.RGB 200 = some [200, 200, 100, 0] ∧
    pixelColor PixelFormat.BGR 200 = some [100, 200, 200, 0] :=
  c6_rgb_bgr_color 77 (by decide)

/-- Claim C7 (confirmed): for every intensity in `[0,255]` the
single-channel compositor produces first byte `0x0F` exactly when the
intensity is strictly greater than 200 (else 0) with all remaining bytes 0;
in particular 201 yields `[0x0F,0,0,0]` and 200 yields `[0,0,0,0]`. -/
theorem c7_single_channel (i : Nat) (h : i ≤ 255) :
    pixelColor PixelFormat.U8 i = some [if i > 200 then 0xf else 0, 0, 0, 0] ∧
    pixelColor PixelFormat.U8 201 = some [0xf, 0, 0, 0] ∧
    pixelColor PixelFormat.U8 200 = some [0, 0, 0, 0] :=
  ⟨rfl, by decide, by decide⟩

/-- C7 witness: the single-channel threshold law evaluated at intensity 201. -/
theorem c7_witness :
    pixelColor PixelFormat.U8 201 = some [if 201 > 200 then 0xf else 0, 0, 0, 0] ∧
    pixelColor PixelFormat.U8 201 = some [0xf, 0, 0, 0] ∧
    pixelColor PixelFormat.U8 200 = some [0, 0, 0, 0] :=
  c7_single_channel 201 (by decide)

/-- Claim C8 (confirmed): `clear` is idempotent — clearing twice yields
exactly the same state as clearing once: cursor `(0,0)` and a fully zeroed
buffer. -/
theorem c8_clear_idempotent (w : Writer) :
    w.clear.clear = w.clear ∧ w.clear.x_pos = 0 ∧ w.clear.y_pos = 0 ∧
    ∀ b ∈ w.clear.framebuffer, b = 0 := by
  refine ⟨?_, rfl, rfl, ?_⟩
  · simp only [Writer.clear, List.map_map]
    rfl
  · intro b hb
    simp only [Writer.clear, List.mem_map] at hb
    obtain ⟨a, _, ha⟩ := hb
    exact ha.symm

/-- Claim C9 (confirmed): writing a visible character for which the
rasterizer returns no glyph bitmap panics (`Option::unwrap` on `None`):
the write aborts with no resulting state, rather than returning an error
value or skipping the character. -/
theorem c9_missing_glyph (f : Font) (w : Writer) (c : Char)
    (h1 : c ≠ '\n') (h2 : c ≠ '\r') (h3 : f.get_bitmap c = none) :
    w.write_char f c = none := by
  simp only [Writer.write_char, if_neg h1, if_neg h2, h3]

/-- C9 witness: `font14` has no glyph for `B`, so writing `B` panics. -/
theorem c9_witness : s5.write_char font14 'B' = none :=
  c9_missing_glyph font14 s5 'B' (by decide) (by decide) (by decide)

/-- Claim C10 (confirmed): whenever `write_str` returns at all (it did not
panic), the returned `fmt::Result` is `Ok(())` — no input string can make
it surface an `Err`. -/
theorem c10_write_str_ok (f : Font) (w : Writer) (s : List Char)
    (p : Writer × Except Unit Unit) (h : w.write_str f s = some p) :
    p.2 = Except.ok () := by
  induction s generalizing w with
  | nil =>
    exact Option.some.inj h ▸ rfl
  | cons c cs ih =>
    simp only [Writer.write_str] at h
    cases hwc : w.write_char f c with
    | none => rw [hwc] at h; simp at h
    | some w2 => rw [hwc] at h; exact ih w2 h

/-- C10 witness: writing the string consisting of a single newline returns
`Ok(())`. -/
theorem c10_witness :
    ((Writer.newline s5, Except.ok ()) : Writer × Except Unit Unit).2 = Except.ok () :=
  c10_write_str_ok font14 s5 ['\n'] (s5.newline, Except.ok ()) rfl

end Terminal
